import Mathlib

/-!
Shallow embedding of `src/src/lib/ai/utils.ts`: the `formatErrorResponse`
helper, the `AIChat` widget's `handleSubmit` and `playAudio` functions, the
notification-timer effect, and the standalone `textToSpeech` helper.

Conventions of the embedding:
- JavaScript runtime values that the code inspects dynamically are modelled by
  the inductive `JSValue` (an `Error` instance with a message, a string,
  `null`, `undefined`, or any other object).
- Network calls are modelled by passing the environment's outcome (the HTTP
  response, or the fact that `fetch` threw) as an explicit argument.
- `Date.now()` samples and `formatTime(new Date())` results are passed as
  explicit arguments (`now1`, `now2`, `ts1`, `ts2`), one per sampling site.
- React state updates become explicit state passing on `ChatState`.
-/

/-- A JavaScript runtime value, to the extent the source inspects one:
an `Error` instance carrying a message, a string, `null`, `undefined`,
or any other (non-Error, non-string) object. -/
inductive JSValue where
  | jsError (message : String)
  | str (s : String)
  | null
  | undefined
  | other
deriving DecidableEq, Repr

/-- JavaScript truthiness on `JSValue`: objects (including `Error` instances)
are truthy, a string is truthy iff it is non-empty, `null` and `undefined`
are falsy. -/
def jsTruthy : JSValue → Bool
  | .jsError _ => true
  | .str s => s != ""
  | .null => false
  | .undefined => false
  | .other => true

/-- `typeof v === 'string'` on `JSValue`. -/
def jsIsString : JSValue → Bool
  | .str _ => true
  | _ => false

/-- `formatErrorResponse` (utils.ts lines 1-6): returns `error.message` when
the argument is an `instanceof Error`, and the fixed string otherwise. -/
def formatErrorResponse : JSValue → String
  | .jsError message => message
  | _ => "An unexpected error occurred"

/-- The `Message` interface (utils.ts lines 28-33). -/
structure Message where
  id : String
  text : String
  isAI : Bool
  timestamp : String
deriving DecidableEq, Repr

/-- The widget's React state (utils.ts lines 36-40): `isOpen`, `messages`,
`input`, `isLoading`, `showNotification` (the last renamed `showNotif`). -/
structure ChatState where
  isOpen : Bool
  messages : List Message
  input : String
  isLoading : Bool
  showNotif : Bool
deriving DecidableEq, Repr

/-- JavaScript whitespace as stripped by `String.prototype.trim` (the
characters relevant to text input: space, tab, line feed, carriage return,
vertical tab, form feed). -/
def jsWhitespace (c : Char) : Bool :=
  c = ' ' || c = '\t' || c = '\n' || c = '\r' || c = '\x0b' || c = '\x0c'

/-- Model of the JavaScript builtin `s.trim()`: strips leading and trailing
whitespace. (Lean's own `String.trim` is defined through well-founded
recursion and does not evaluate in the kernel, so the embedding works on the
underlying character list.) -/
def jsTrim (s : String) : String :=
  String.mk (((s.data.dropWhile jsWhitespace).reverse.dropWhile jsWhitespace).reverse)

/-- The decoded JSON body of a `/api/chat` response. `error` is `none` when
the field is absent (a JS `undefined` read); the model covers bodies whose
`response` field, when it is used, is a string — the endpoint's documented
success schema. -/
structure ChatBody where
  error : Option String
  response : String
deriving DecidableEq, Repr

/-- Truthiness of the JS read `data.error` when the field is an optional
string: absent (`undefined`) and the empty string are falsy. -/
def jsTruthyOptStr : Option String → Bool
  | none => false
  | some s => s != ""

/-- Outcome of the `fetch('/api/chat', ...)` call: either the call threw
(network failure), or it produced a response with HTTP-success flag
`ok` and decoded JSON body `body`. -/
inductive ChatOutcome where
  | throws
  | response (ok : Bool) (body : ChatBody)
deriving DecidableEq, Repr

/-- The fixed localized fallback text appended on any chat failure
(utils.ts line 108). -/
def fallbackText : String := "Извините, произошла ошибка. Попробуйте позже."

/-- Result of one `handleSubmit` call: the final widget state and the list of
`message` fields POSTed to `/api/chat` (at most one; empty when the guard
short-circuits). -/
structure SubmitResult where
  state : ChatState
  chatRequests : List String
deriving DecidableEq, Repr

/-- `handleSubmit` (utils.ts lines 68-115). The guard (line 70) returns early
when the trimmed input is empty or a request is in flight. Otherwise the user
message (raw `input`, id `Date.now()` = `now1`) is appended, input cleared,
`isLoading` set; the raw `input` is POSTed. On a non-ok status, a truthy
`data.error`, or a thrown fetch, the catch block appends the fallback
assistant message (id `Date.now()` = `now2`); on success the assistant
message carries `data.response` (id `Date.now() + 1` = `now2 + 1`). The
`finally` block clears `isLoading` on every path. -/
def handleSubmit (s : ChatState) (outcome : ChatOutcome)
    (now1 now2 : Nat) (ts1 ts2 : String) : SubmitResult :=
  if jsTrim s.input == "" || s.isLoading then ⟨s, []⟩
  else
    let userMessage : Message := ⟨toString now1, s.input, false, ts1⟩
    let s1 : ChatState :=
      { s with messages := s.messages ++ [userMessage], input := "", isLoading := true }
    let failMsg : Message := ⟨toString now2, fallbackText, true, ts2⟩
    match outcome with
    | .throws =>
        ⟨{ s1 with messages := s1.messages ++ [failMsg], isLoading := false }, [s.input]⟩
    | .response ok body =>
        if !ok then
          ⟨{ s1 with messages := s1.messages ++ [failMsg], isLoading := false }, [s.input]⟩
        else if jsTruthyOptStr body.error then
          ⟨{ s1 with messages := s1.messages ++ [failMsg], isLoading := false }, [s.input]⟩
        else
          let aiMessage : Message := ⟨toString (now2 + 1), body.response, true, ts2⟩
          ⟨{ s1 with messages := s1.messages ++ [aiMessage], isLoading := false }, [s.input]⟩

/-- Outcome of the `fetch('/api/speech', ...)` call in `playAudio`: the call
threw, or it produced a response with HTTP-success flag `ok` and binary body
`buffer` (the `arrayBuffer()` bytes). -/
inductive SpeechOutcome where
  | throws
  | response (ok : Bool) (buffer : List Nat)
deriving DecidableEq, Repr

/-- Observable audio-side events of `playAudio` (utils.ts lines 117-144), in
program order: creation of the temporary object URL (line 132), start of
playback (`await audio.play()`, line 134), the natural end of playback, the
release of the object URL (`URL.revokeObjectURL`, line 138), and the
`console.error` log in the catch block (line 142). -/
inductive AudioEvent where
  | urlCreated
  | playStarted
  | playbackEnded
  | urlRevoked
  | consoleError
deriving DecidableEq, Repr

/-- The action installed as the `audio.onended` handler (line 137): release
the object URL. -/
inductive AudioAction where
  | revokeURL
deriving DecidableEq, Repr

/-- Result of one `playAudio` call: the widget state (the function performs
no state update in the source), the audio events emitted up to and including
the start of playback, and the `onended` handler installed, if any. -/
structure PlayAudioResult where
  state : ChatState
  events : List AudioEvent
  onEnded : Option AudioAction
deriving DecidableEq, Repr

/-- The `try` body of `playAudio` (utils.ts lines 118-140): POST to
`/api/speech`; on a non-ok status throw `Error('Failed to get audio')`; on a
thrown fetch propagate the network error; otherwise read the array buffer
(always truthy as an object, so the line-130 guard passes), create the blob
and object URL, start playback, and install the `onended` revoke handler.
No path touches `messages` or any other widget state. -/
def playAudioTry (s : ChatState) (outcome : SpeechOutcome) :
    Except JSValue PlayAudioResult :=
  match outcome with
  | .throws => .error .other
  | .response ok _buffer =>
      if !ok then .error (.jsError "Failed to get audio")
      else .ok ⟨s, [.urlCreated, .playStarted], some .revokeURL⟩

/-- `playAudio` (utils.ts lines 117-144): the `try` body wrapped in the
`catch` that logs the error to the console and swallows it, so no exception
escapes. -/
def playAudio (s : ChatState) (outcome : SpeechOutcome) : PlayAudioResult :=
  match playAudioTry s outcome with
  | .ok r => r
  | .error _ => ⟨s, [.consoleError], none⟩

/-- Runtime semantics of the `onended` handler: the full event trace of a
playback, given whether playback reaches its natural end. When it ends, the
installed handler (if any) runs exactly once, after the end event. -/
def audioLifecycle (r : PlayAudioResult) (ends : Bool) : List AudioEvent :=
  r.events ++
    if ends then
      .playbackEnded :: (match r.onEnded with
        | some .revokeURL => [.urlRevoked]
        | none => [])
    else []

/-- Outcome of the `voice.textToSpeech` provider call in `textToSpeech`:
the provider threw `e`, or returned a payload — `none` models a `null` or
`undefined` return (falsy at the line-230 guard), `some bytes` a buffer with
`byteLength = bytes.length`. -/
inductive ProviderOutcome where
  | throws (e : JSValue)
  | returns (payload : Option (List Nat))
deriving DecidableEq, Repr

/-- The `try` body of `textToSpeech` (utils.ts lines 216-234): throw on a
falsy or non-string input, throw when the API key environment value is falsy,
call the provider, throw on a falsy or empty payload, otherwise return the
payload. Thrown values are `Error` instances except what the provider itself
throws, which is propagated as-is. -/
def textToSpeechTry (text apiKey : JSValue) (provider : ProviderOutcome) :
    Except JSValue (List Nat) :=
  if !jsTruthy text || !jsIsString text then .error (.jsError "Invalid text input")
  else if !jsTruthy apiKey then .error (.jsError "ElevenLabs API key is not configured")
  else match provider with
    | .throws e => .error e
    | .returns none => .error (.jsError "No audio data received from ElevenLabs")
    | .returns (some bytes) =>
        if bytes.length == 0 then .error (.jsError "No audio data received from ElevenLabs")
        else .ok bytes

/-- `textToSpeech` (utils.ts lines 215-239): the `try` body wrapped in the
`catch` block that logs and re-throws `new Error(formatErrorResponse(error))`,
so every failure surfaces as an `Error` carrying a plain message string. -/
def textToSpeech (text apiKey : JSValue) (provider : ProviderOutcome) :
    Except String (List Nat) :=
  match textToSpeechTry text apiKey provider with
  | .ok audio => .ok audio
  | .error e => .error (formatErrorResponse e)

/-- The auto-hide delay of the notification indicator (utils.ts line 49):
5000 ms. -/
def notifHideDelay : Nat := 5000

/-- The widget-level state for the notification effect: the React state plus
the multiset of pending `setTimeout` hide timers, each recorded with its
delay. -/
structure WidgetState where
  st : ChatState
  hideTimers : List Nat
deriving DecidableEq, Repr

/-- Events driving the widget state machine: the open button click
(utils.ts line 206, `setIsOpen(true)`), the close button click (line 151,
`setIsOpen(false)`), a firing of the recurring notification interval
(lines 46-51), and a firing of a pending hide timeout (line 49). -/
inductive WidgetEvent where
  | openChat
  | closeChat
  | intervalFire
  | hideFire
deriving DecidableEq, Repr

/-- One transition of the widget state machine, translated from the source:
the interval callback shows the notification and schedules a hide timeout
only when the widget is collapsed (`if (!isOpen)`, line 47); a firing hide
timeout clears the notification flag; the open/close buttons set `isOpen`. -/
def widgetStep (w : WidgetState) : WidgetEvent → WidgetState
  | .openChat => { w with st := { w.st with isOpen := true } }
  | .closeChat => { w with st := { w.st with isOpen := false } }
  | .intervalFire =>
      if w.st.isOpen then w
      else
        { w with st := { w.st with showNotif := true },
                 hideTimers := w.hideTimers ++ [notifHideDelay] }
  | .hideFire =>
      match w.hideTimers with
      | [] => w
      | _ :: rest => { w with st := { w.st with showNotif := false }, hideTimers := rest }

/-- The initial widget state on mount (utils.ts lines 36-40): collapsed, no
messages, empty input, not loading, no notification, no pending timers. -/
def initWidget : WidgetState := ⟨⟨false, [], "", false, false⟩, []⟩

/-- Reachability of a widget state from the mount state under the event
transitions. -/
inductive ReachableWidget : WidgetState → Prop where
  | init : ReachableWidget initWidget
  | step (w : WidgetState) (e : WidgetEvent) :
      ReachableWidget w → ReachableWidget (widgetStep w e)

/-- The render condition of the notification indicator (utils.ts lines
203-209): the `chat-toggle` button is rendered only when `!isOpen`, and it
carries the `notification` class exactly when the notification flag is set. -/
def indicatorVisible (w : WidgetState) : Bool :=
  !w.st.isOpen && w.st.showNotif

/-- The assistant message appended by a guard-passing `handleSubmit` call,
as a function of the fetch outcome: the fallback message on a thrown fetch, a
non-ok status, or a truthy `data.error`; otherwise the `data.response` reply
(with the `Date.now() + 1` id of the success path). -/
def assistantOf (outcome : ChatOutcome) (now2 : Nat) (ts2 : String) : Message :=
  match outcome with
  | .throws => ⟨toString now2, fallbackText, true, ts2⟩
  | .response ok body =>
      if !ok then ⟨toString now2, fallbackText, true, ts2⟩
      else if jsTruthyOptStr body.error then ⟨toString now2, fallbackText, true, ts2⟩
      else ⟨toString (now2 + 1), body.response, true, ts2⟩

/-- Normal form of a guard-passing `handleSubmit` call: the raw input is
POSTed once, the user message and the outcome's assistant message are
appended in that order, the input is cleared and `isLoading` ends false. -/
theorem handleSubmit_guard_pass (s : ChatState) (outcome : ChatOutcome)
    (now1 now2 : Nat) (ts1 ts2 : String)
    (hin : jsTrim s.input ≠ "") (hload : s.isLoading = false) :
    handleSubmit s outcome now1 now2 ts1 ts2 =
      ⟨{ s with
          messages := s.messages ++
            [⟨toString now1, s.input, false, ts1⟩, assistantOf outcome now2 ts2],
          input := "", isLoading := false }, [s.input]⟩ := by
  have hg : (jsTrim s.input == "" || s.isLoading) = false := by
    simp [hload, hin]
  cases outcome with
  | throws => simp [handleSubmit, hg, assistantOf]
  | response ok body =>
      cases ok with
      | false => simp [handleSubmit, hg, assistantOf]
      | true =>
          by_cases he : jsTruthyOptStr body.error = true
          · simp [handleSubmit, hg, assistantOf, he]
          · simp [handleSubmit, hg, assistantOf, he]

/-- The outcome's assistant message always carries `isAI = true`. -/
theorem assistantOf_isAI (outcome : ChatOutcome) (now2 : Nat) (ts2 : String) :
    (assistantOf outcome now2 ts2).isAI = true := by
  cases outcome with
  | throws => rfl
  | response ok body =>
      cases ok with
      | false => rfl
      | true =>
          by_cases he : jsTruthyOptStr body.error = true
          · simp [assistantOf, he]
          · simp [assistantOf, he]

/-- The outcome's assistant message carries either the fallback text or the
real reply of a successful response. -/
theorem assistantOf_text (outcome : ChatOutcome) (now2 : Nat) (ts2 : String) :
    (assistantOf outcome now2 ts2).text = fallbackText ∨
      ∃ body : ChatBody, outcome = ChatOutcome.response true body ∧
        (assistantOf outcome now2 ts2).text = body.response := by
  cases outcome with
  | throws => exact Or.inl rfl
  | response ok body =>
      cases ok with
      | false => exact Or.inl rfl
      | true =>
          by_cases he : jsTruthyOptStr body.error = true
          · exact Or.inl (by simp [assistantOf, he])
          · exact Or.inr ⟨body, rfl, by simp [assistantOf, he]⟩

/-- Claim C1: for every input that is non-empty after trimming, submitted
while no request is in flight, `handleSubmit` appends exactly one user
message (`isAI = false`) followed by exactly one assistant message
(`isAI = true`, carrying either the real reply or the fallback text), and
`isLoading` is false after the call on every outcome. -/
theorem handleSubmit_appends_user_then_assistant (s : ChatState) (outcome : ChatOutcome)
    (now1 now2 : Nat) (ts1 ts2 : String)
    (hin : jsTrim s.input ≠ "") (hload : s.isLoading = false) :
    ∃ u a : Message,
      (handleSubmit s outcome now1 now2 ts1 ts2).state.messages = s.messages ++ [u, a] ∧
      u.isAI = false ∧ a.isAI = true ∧
      (a.text = fallbackText ∨
        ∃ body : ChatBody, outcome = ChatOutcome.response true body ∧ a.text = body.response) ∧
      (handleSubmit s outcome now1 now2 ts1 ts2).state.isLoading = false := by
  refine ⟨⟨toString now1, s.input, false, ts1⟩, assistantOf outcome now2 ts2, ?_, rfl,
    assistantOf_isAI outcome now2 ts2, assistantOf_text outcome now2 ts2, ?_⟩
  · rw [handleSubmit_guard_pass s outcome now1 now2 ts1 ts2 hin hload]
  · rw [handleSubmit_guard_pass s outcome now1 now2 ts1 ts2 hin hload]

/-- Witness for C1 at a concrete state and outcome. -/
theorem handleSubmit_appends_user_then_assistant_witness :
    ∃ u a : Message,
      (handleSubmit ⟨false, [], "hello", false, false⟩ ChatOutcome.throws 0 1 "t1" "t2").state.messages
        = [] ++ [u, a] ∧
      u.isAI = false ∧ a.isAI = true ∧
      (a.text = fallbackText ∨
        ∃ body : ChatBody, ChatOutcome.throws = ChatOutcome.response true body ∧
          a.text = body.response) ∧
      (handleSubmit ⟨false, [], "hello", false, false⟩ ChatOutcome.throws 0 1 "t1" "t2").state.isLoading
        = false :=
  handleSubmit_appends_user_then_assistant ⟨false, [], "hello", false, false⟩
    ChatOutcome.throws 0 1 "t1" "t2" (by decide) rfl

/-- Counterexample to claim C2 as stated: a successful response whose decoded
JSON body contains an `error` field — here `error = ""` — does not produce
the fallback; the code tests JS truthiness of `data.error` (line 95), and the
empty string is falsy, so the real reply `"real"` is appended instead. -/
theorem handleSubmit_error_field_counterexample :
    (handleSubmit ⟨false, [], "q", false, false⟩
        (ChatOutcome.response true ⟨some "", "real"⟩) 0 1 "t1" "t2").state.messages.map
        Message.text = ["q", "real"] ∧
    ("real" : String) ≠ fallbackText := by
  constructor
  · decide
  · decide

/-- Claim C2 (amended: a present `error` field triggers the fallback only
when it is truthy, i.e. a non-empty string): on a non-success HTTP status, a
truthy `error` field in the decoded body, or a thrown fetch, `handleSubmit`
appends exactly one assistant message whose text is the fixed localized
fallback string, after the user message. -/
theorem handleSubmit_fallback_on_failure (s : ChatState) (outcome : ChatOutcome)
    (now1 now2 : Nat) (ts1 ts2 : String)
    (hin : jsTrim s.input ≠ "") (hload : s.isLoading = false)
    (hfail : outcome = ChatOutcome.throws ∨
      ∃ ok body, outcome = ChatOutcome.response ok body ∧
        (ok = false ∨ jsTruthyOptStr body.error = true)) :
    (handleSubmit s outcome now1 now2 ts1 ts2).state.messages
      = s.messages ++ [⟨toString now1, s.input, false, ts1⟩,
          ⟨toString now2, fallbackText, true, ts2⟩] := by
  rw [handleSubmit_guard_pass s outcome now1 now2 ts1 ts2 hin hload]
  rcases hfail with rfl | ⟨ok, body, rfl, hc⟩
  · rfl
  · rcases hc with rfl | he
    · rfl
    · cases ok
      · rfl
      · simp [assistantOf, he]

/-- Witness for C2's amended theorem at a concrete HTTP-500-style outcome. -/
theorem handleSubmit_fallback_on_failure_witness :
    (handleSubmit ⟨false, [], "q", false, false⟩
        (ChatOutcome.response false ⟨none, ""⟩) 0 1 "t1" "t2").state.messages
      = [] ++ [⟨"0", "q", false, "t1"⟩, ⟨"1", fallbackText, true, "t2"⟩] :=
  handleSubmit_fallback_on_failure ⟨false, [], "q", false, false⟩
    (ChatOutcome.response false ⟨none, ""⟩) 0 1 "t1" "t2" (by decide) rfl
    (Or.inr ⟨false, ⟨none, ""⟩, rfl, Or.inl rfl⟩)

/-- Claim C3: when the pending input is empty or whitespace-only after
trimming, or a request is already in flight, `handleSubmit` is a no-op: the
state (in particular the conversation list) is unchanged and no HTTP request
is issued. -/
theorem handleSubmit_guard_noop (s : ChatState) (outcome : ChatOutcome)
    (now1 now2 : Nat) (ts1 ts2 : String)
    (h : jsTrim s.input = "" ∨ s.isLoading = true) :
    handleSubmit s outcome now1 now2 ts1 ts2 = ⟨s, []⟩ := by
  unfold handleSubmit
  rcases h with h | h <;> simp [h]

/-- Witness for C3: a whitespace-only input and an in-flight submission, both
at concrete states. -/
theorem handleSubmit_guard_noop_witness :
    handleSubmit ⟨false, [], "   ", false, false⟩ ChatOutcome.throws 0 1 "a" "b"
      = ⟨⟨false, [], "   ", false, false⟩, []⟩ ∧
    handleSubmit ⟨false, [], "hi", true, false⟩ ChatOutcome.throws 0 1 "a" "b"
      = ⟨⟨false, [], "hi", true, false⟩, []⟩ :=
  ⟨handleSubmit_guard_noop ⟨false, [], "   ", false, false⟩ ChatOutcome.throws 0 1 "a" "b"
      (Or.inl (by decide)),
   handleSubmit_guard_noop ⟨false, [], "hi", true, false⟩ ChatOutcome.throws 0 1 "a" "b"
      (Or.inr rfl)⟩

/-- Claim C4: on a success-status response with body `{ response := "hi" }`
and no error field, the appended assistant message has text exactly `"hi"`
and `isAI = true` (and carries the success-path id `now2 + 1`). -/
theorem handleSubmit_success_reply (s : ChatState) (now1 now2 : Nat) (ts1 ts2 : String)
    (hin : jsTrim s.input ≠ "") (hload : s.isLoading = false) :
    (handleSubmit s (ChatOutcome.response true ⟨none, "hi"⟩) now1 now2 ts1 ts2).state.messages
      = s.messages ++ [⟨toString now1, s.input, false, ts1⟩,
          ⟨toString (now2 + 1), "hi", true, ts2⟩] := by
  rw [handleSubmit_guard_pass s (ChatOutcome.response true ⟨none, "hi"⟩) now1 now2 ts1 ts2
    hin hload]
  rfl

/-- Witness for C4 at a concrete state. -/
theorem handleSubmit_success_reply_witness :
    (handleSubmit ⟨false, [], "q", false, false⟩
        (ChatOutcome.response true ⟨none, "hi"⟩) 0 1 "t1" "t2").state.messages
      = [] ++ [⟨"0", "q", false, "t1"⟩, ⟨"2", "hi", true, "t2"⟩] :=
  handleSubmit_success_reply ⟨false, [], "q", false, false⟩ 0 1 "t1" "t2" (by decide) rfl

/-- Claim C10: past the trim guard, `handleSubmit` preserves the raw
untrimmed input at the public interface: the appended user message's text and
the single POSTed `message` field both equal the original input string. -/
theorem handleSubmit_raw_input (s : ChatState) (outcome : ChatOutcome)
    (now1 now2 : Nat) (ts1 ts2 : String)
    (hin : jsTrim s.input ≠ "") (hload : s.isLoading = false) :
    (∃ rest, (handleSubmit s outcome now1 now2 ts1 ts2).state.messages
        = s.messages ++ ⟨toString now1, s.input, false, ts1⟩ :: rest) ∧
    (handleSubmit s outcome now1 now2 ts1 ts2).chatRequests = [s.input] := by
  rw [handleSubmit_guard_pass s outcome now1 now2 ts1 ts2 hin hload]
  exact ⟨⟨[assistantOf outcome now2 ts2], rfl⟩, rfl⟩

/-- Witness for C10 at an input with leading and trailing whitespace: the
stored text and the POSTed body keep the whitespace. -/
theorem handleSubmit_raw_input_witness :
    (∃ rest, (handleSubmit ⟨false, [], " hi ", false, false⟩
        ChatOutcome.throws 0 1 "t1" "t2").state.messages
        = [] ++ ⟨"0", " hi ", false, "t1"⟩ :: rest) ∧
    (handleSubmit ⟨false, [], " hi ", false, false⟩
        ChatOutcome.throws 0 1 "t1" "t2").chatRequests = [" hi "] :=
  handleSubmit_raw_input ⟨false, [], " hi ", false, false⟩ ChatOutcome.throws 0 1 "t1" "t2"
    (by decide) rfl

/-- The `try` body of `textToSpeech` fails exactly on an invalid input, a
missing credential, a provider exception, or a missing/empty payload. -/
theorem textToSpeechTry_error_iff (text apiKey : JSValue) (provider : ProviderOutcome) :
    (∃ e, textToSpeechTry text apiKey provider = Except.error e) ↔
      jsTruthy text = false ∨ jsIsString text = false ∨ jsTruthy apiKey = false ∨
      (∃ e, provider = ProviderOutcome.throws e) ∨
      provider = ProviderOutcome.returns none ∨
      provider = ProviderOutcome.returns (some []) := by
  unfold textToSpeechTry
  by_cases h1 : (!jsTruthy text || !jsIsString text) = true
  · rw [if_pos h1]
    simp only [Bool.or_eq_true, Bool.not_eq_true'] at h1
    constructor
    · intro _
      rcases h1 with h | h
      · exact Or.inl h
      · exact Or.inr (Or.inl h)
    · intro _
      exact ⟨_, rfl⟩
  · rw [if_neg h1]
    simp only [Bool.or_eq_true, Bool.not_eq_true', not_or] at h1
    obtain ⟨ht, hs⟩ := h1
    by_cases h2 : (!jsTruthy apiKey) = true
    · rw [if_pos h2]
      simp only [Bool.not_eq_true'] at h2
      exact ⟨fun _ => Or.inr (Or.inr (Or.inl h2)), fun _ => ⟨_, rfl⟩⟩
    · rw [if_neg h2]
      simp only [Bool.not_eq_true', Bool.ne_false_iff] at h2
      cases provider with
      | throws e =>
          exact ⟨fun _ => Or.inr (Or.inr (Or.inr (Or.inl ⟨e, rfl⟩))), fun _ => ⟨e, rfl⟩⟩
      | returns payload =>
          cases payload with
          | none =>
              exact ⟨fun _ => Or.inr (Or.inr (Or.inr (Or.inr (Or.inl rfl)))),
                fun _ => ⟨_, rfl⟩⟩
          | some bytes =>
              dsimp only
              by_cases hb : (bytes.length == 0) = true
              · rw [if_pos hb]
                simp only [beq_iff_eq, List.length_eq_zero] at hb
                subst hb
                exact ⟨fun _ => Or.inr (Or.inr (Or.inr (Or.inr (Or.inr rfl)))),
                  fun _ => ⟨_, rfl⟩⟩
              · rw [if_neg hb]
                simp only [beq_iff_eq, List.length_eq_zero] at hb
                constructor
                · rintro ⟨e, he⟩
                  exact absurd he (by simp)
                · rintro (h | h | h | ⟨e, h⟩ | h | h)
                  · exact absurd h (by simp [ht])
                  · exact absurd h (by simp [hs])
                  · exact absurd h (by simp [h2])
                  · exact ProviderOutcome.noConfusion h
                  · injection h with h
                    exact Option.noConfusion h
                  · injection h with h
                    injection h with h
                    exact absurd h hb

/-- A successful `try` body returns exactly the provider's non-empty
payload. -/
theorem textToSpeechTry_ok (text apiKey : JSValue) (provider : ProviderOutcome)
    (bytes : List Nat) (h : textToSpeechTry text apiKey provider = Except.ok bytes) :
    provider = ProviderOutcome.returns (some bytes) ∧ bytes ≠ [] := by
  unfold textToSpeechTry at h
  split at h
  · exact Except.noConfusion h
  · split at h
    · exact Except.noConfusion h
    · cases provider with
      | throws e => exact Except.noConfusion h
      | returns payload =>
          cases payload with
          | none => exact Except.noConfusion h
          | some bs =>
              dsimp only at h
              split at h
              · exact Except.noConfusion h
              · next hb =>
                  injection h with h
                  subst h
                  simp only [beq_iff_eq, List.length_eq_zero] at hb
                  exact ⟨rfl, hb⟩

/-- The catch block of `textToSpeech` preserves the success/failure shape of
the `try` body, normalizing a thrown value to its message string. -/
theorem textToSpeech_error_transfer (text apiKey : JSValue) (provider : ProviderOutcome) :
    (∃ m, textToSpeech text apiKey provider = Except.error m) ↔
      (∃ e, textToSpeechTry text apiKey provider = Except.error e) := by
  unfold textToSpeech
  cases h : textToSpeechTry text apiKey provider with
  | ok a =>
      simp only []
      constructor
      · rintro ⟨m, hm⟩
        exact Except.noConfusion hm
      · rintro ⟨e, he⟩
        exact Except.noConfusion he
  | error e =>
      simp only []
      exact ⟨fun _ => ⟨e, rfl⟩, fun _ => ⟨formatErrorResponse e, rfl⟩⟩

/-- Claim C5: `textToSpeech` fails exactly when the input is missing or not a
non-empty string, the API credential is not configured (falsy), the provider
throws, or the provider returns a missing/empty audio payload; every failure
surfaces as a plain message string produced by `formatErrorResponse`; on
success it returns exactly the provider's payload. -/
theorem textToSpeech_error_spec (text apiKey : JSValue) (provider : ProviderOutcome) :
    ((∃ m, textToSpeech text apiKey provider = Except.error m) ↔
      jsTruthy text = false ∨ jsIsString text = false ∨ jsTruthy apiKey = false ∨
      (∃ e, provider = ProviderOutcome.throws e) ∨
      provider = ProviderOutcome.returns none ∨
      provider = ProviderOutcome.returns (some [])) ∧
    (∀ m, textToSpeech text apiKey provider = Except.error m →
      ∃ e : JSValue, m = formatErrorResponse e) ∧
    (∀ bytes, textToSpeech text apiKey provider = Except.ok bytes →
      provider = ProviderOutcome.returns (some bytes) ∧ bytes ≠ []) := by
  refine ⟨(textToSpeech_error_transfer text apiKey provider).trans
    (textToSpeechTry_error_iff text apiKey provider), ?_, ?_⟩
  · intro m hm
    unfold textToSpeech at hm
    cases h : textToSpeechTry text apiKey provider with
    | ok a =>
        rw [h] at hm
        exact Except.noConfusion hm
    | error e =>
        rw [h] at hm
        injection hm with hm
        exact ⟨e, hm.symm⟩
  · intro bytes hb
    unfold textToSpeech at hb
    cases h : textToSpeechTry text apiKey provider with
    | ok a =>
        rw [h] at hb
        injection hb with hb
        subst hb
        exact textToSpeechTry_ok text apiKey provider _ h
    | error e =>
        rw [h] at hb
        exact Except.noConfusion hb

/-- Witness for C5: a missing payload at a configured key and valid input
yields an error; a valid input, key and payload yields the payload. -/
theorem textToSpeech_error_spec_witness :
    (∃ m, textToSpeech (JSValue.str "hi") (JSValue.str "key")
        (ProviderOutcome.returns none) = Except.error m) ∧
    (ProviderOutcome.returns (some [7]) = ProviderOutcome.returns (some [7]) ∧
      ([7] : List Nat) ≠ []) :=
  ⟨(textToSpeech_error_spec (JSValue.str "hi") (JSValue.str "key")
      (ProviderOutcome.returns none)).1.mpr
      (Or.inr (Or.inr (Or.inr (Or.inr (Or.inl rfl))))),
   (textToSpeech_error_spec (JSValue.str "hi") (JSValue.str "key")
      (ProviderOutcome.returns (some [7]))).2.2 [7] rfl⟩

/-- Claim C6: when the speech endpoint responds with a non-success status or
the fetch throws, `playAudio` leaves the widget state (in particular the
conversation list) unchanged, emits only the diagnostic console log, installs
no playback handler, and — being the total catch-wrapped function — lets no
exception escape. -/
theorem playAudio_failure_frame (s : ChatState) (outcome : SpeechOutcome)
    (h : outcome = SpeechOutcome.throws ∨
      ∃ buffer, outcome = SpeechOutcome.response false buffer) :
    playAudio s outcome = ⟨s, [AudioEvent.consoleError], none⟩ := by
  rcases h with rfl | ⟨buffer, rfl⟩
  · rfl
  · rfl

/-- Witness for C6 at a concrete state and a non-success response. -/
theorem playAudio_failure_frame_witness :
    playAudio ⟨false, [⟨"1", "x", true, "t"⟩], "", false, false⟩
        (SpeechOutcome.response false [1, 2])
      = ⟨⟨false, [⟨"1", "x", true, "t"⟩], "", false, false⟩,
          [AudioEvent.consoleError], none⟩ :=
  playAudio_failure_frame ⟨false, [⟨"1", "x", true, "t"⟩], "", false, false⟩
    (SpeechOutcome.response false [1, 2]) (Or.inr ⟨[1, 2], rfl⟩)

/-- Claim C7: on a success response, `playAudio` creates the object URL, then
starts playback, and installs the revoke action as the `onended` handler; the
full lifecycle trace releases the URL exactly once, strictly after the
natural end of playback, and a playback that has not ended releases
nothing. -/
theorem playAudio_success_revokes_once (s : ChatState) (buffer : List Nat) :
    playAudio s (SpeechOutcome.response true buffer)
      = ⟨s, [AudioEvent.urlCreated, AudioEvent.playStarted], some AudioAction.revokeURL⟩ ∧
    audioLifecycle (playAudio s (SpeechOutcome.response true buffer)) true
      = [AudioEvent.urlCreated, AudioEvent.playStarted, AudioEvent.playbackEnded,
          AudioEvent.urlRevoked] ∧
    (audioLifecycle (playAudio s (SpeechOutcome.response true buffer)) true).count
        AudioEvent.urlRevoked = 1 ∧
    (audioLifecycle (playAudio s (SpeechOutcome.response true buffer)) false).count
        AudioEvent.urlRevoked = 0 :=
  ⟨rfl, rfl, rfl, rfl⟩

/-- Claim C9: `formatErrorResponse` is total and deterministic, returning the
`Error`'s message on an `Error` instance and the fixed string on every other
value. -/
theorem formatErrorResponse_total :
    (∀ m, formatErrorResponse (JSValue.jsError m) = m) ∧
    (∀ v : JSValue, (∀ m, v ≠ JSValue.jsError m) →
      formatErrorResponse v = "An unexpected error occurred") := by
  refine ⟨fun m => rfl, fun v h => ?_⟩
  cases v with
  | jsError m => exact absurd rfl (h m)
  | str s => rfl
  | null => rfl
  | undefined => rfl
  | other => rfl

/-- Witness for C9 at an `Error` instance, a string, and `null`. -/
theorem formatErrorResponse_total_witness :
    formatErrorResponse (JSValue.jsError "boom") = "boom" ∧
    formatErrorResponse (JSValue.str "boom") = "An unexpected error occurred" ∧
    formatErrorResponse JSValue.null = "An unexpected error occurred" :=
  ⟨formatErrorResponse_total.1 "boom",
   formatErrorResponse_total.2 (JSValue.str "boom") (by intro m hm; exact JSValue.noConfusion hm),
   formatErrorResponse_total.2 JSValue.null (by intro m hm; exact JSValue.noConfusion hm)⟩

/-- Claim C8: in every reachable widget state the rendered notification
indicator is visible only while the widget is collapsed; a timer firing while
collapsed shows the indicator and schedules one hide with the fixed 5000 ms
delay; and a timer firing while expanded changes nothing, so notifications
stay suppressed until the widget is collapsed again. -/
theorem widget_notification_spec :
    (∀ w : WidgetState, ReachableWidget w → indicatorVisible w = true →
      w.st.isOpen = false) ∧
    (∀ w : WidgetState, w.st.isOpen = false →
      widgetStep w WidgetEvent.intervalFire
          = ⟨{ w.st with showNotif := true }, w.hideTimers ++ [notifHideDelay]⟩ ∧
      indicatorVisible (widgetStep w WidgetEvent.intervalFire) = true) ∧
    (∀ w : WidgetState, w.st.isOpen = true →
      widgetStep w WidgetEvent.intervalFire = w) := by
  refine ⟨?_, ?_, ?_⟩
  · intro w _ hvis
    simp only [indicatorVisible, Bool.and_eq_true, Bool.not_eq_true'] at hvis
    exact hvis.1
  · intro w h
    constructor
    · simp [widgetStep, h]
    · simp [widgetStep, indicatorVisible, h]
  · intro w h
    simp [widgetStep, h]

/-- Witness for C8: the state reached by one interval firing from the mount
state is visible and collapsed; a firing in an expanded state is the
identity. -/
theorem widget_notification_spec_witness :
    (widgetStep initWidget WidgetEvent.intervalFire).st.isOpen = false ∧
    indicatorVisible (widgetStep initWidget WidgetEvent.intervalFire) = true ∧
    widgetStep ⟨⟨true, [], "", false, false⟩, []⟩ WidgetEvent.intervalFire
      = ⟨⟨true, [], "", false, false⟩, []⟩ :=
  ⟨widget_notification_spec.1 (widgetStep initWidget WidgetEvent.intervalFire)
      (ReachableWidget.step initWidget WidgetEvent.intervalFire ReachableWidget.init)
      (by decide),
   (widget_notification_spec.2.1 initWidget rfl).2,
   widget_notification_spec.2.2 ⟨⟨true, [], "", false, false⟩, []⟩ rfl⟩
